import Mathlib

/-!
Verification development for the auto-quiz-genie grading engine.

The repository contains two grading implementations:

* the aggregate-JSON variant, `supabase/functions/grade/index.ts` (model `A`
  below): iterates the quiz questions, grades each multiple-choice question by
  exact label comparison and each short-answer question by one oracle (OpenAI)
  call whose parsed JSON result is used directly;

* the per-question variant (the first serve handler of `src/unnamed/part_004`,
  model `B` below): iterates the fetched question responses, grades
  multiple-choice by `parseInt(student_answer) === correct_answer_index`, and
  short answers through `gradeShortAnswer`, which validates the oracle output
  and falls back to a zero score on any failure.

JavaScript numbers are modelled as exact rationals (the inputs of interest are
JSON literals, which the embedding carries exactly); `Math.floor` is the
rational floor; JSON fields that may be absent are `Option` values, and the
JavaScript truthiness tests of the source are modelled explicitly where they
occur.
-/

/-! ## Model A: the aggregate-JSON variant (supabase/functions/grade/index.ts) -/

/-- One entry of the `choices` array of an mcq question (JSON shape produced by
the generate-quiz function: label, text, is_correct). -/
structure ChoiceOpt where
  label : String
  text : String
  is_correct : Bool
deriving DecidableEq

/-- The `type` discriminator of a question: the handler tests
`questionData.type === 'mcq'` and treats every other question as short answer,
and the generator emits exactly "mcq" and "short". -/
inductive QType where
  | mcq
  | short
deriving DecidableEq

/-- The `question.q` JSON payload read by the aggregate handler.  `weight` is
`none` when the JSON field is absent (`undefined` in the source). -/
structure QuestionData where
  id : String
  qtype : QType
  choices : List ChoiceOpt
  question_text : String
  model_answer : String
  rubric_explainer : String
  weight : Option ℚ
deriving DecidableEq

/-- One element of `submission.answers`; `choiceLabel` and `answerText` are
optional fields of the submitted JSON. -/
structure Answer where
  questionId : String
  choiceLabel : Option String
  answerText : Option String
deriving DecidableEq

/-- Embedding of `questionData.weight || 1`: a missing weight and the (falsy)
weight 0 both default to 1; any other numeric weight is used as is. -/
def effWeight (q : QuestionData) : ℚ :=
  match q.weight with
  | none => 1
  | some w => if w = 0 then 1 else w

/-- JavaScript string interpolation of a possibly-undefined value: `undefined`
prints as "undefined". -/
def jsStr : Option String → String
  | none => "undefined"
  | some s => s

/-- Body of the grading prompt of the aggregate variant, abstracted over the
value placed in each interpolation slot (`maxPts` fills both the
"Max Points" line and the "0 to _" score range). -/
def promptTemplate (questionText modelAnswer rubric studentAnswer : String) (maxPts : ℚ) : String :=
  "\nGrade this short answer question:\n\nQuestion: " ++ questionText ++
  "\nModel Answer: " ++ modelAnswer ++
  "\nStudent Answer: " ++ studentAnswer ++
  "\nRubric: " ++ rubric ++
  "\nMax Points: " ++ toString maxPts ++
  "\n\nRespond with JSON only:\n\x7b\n  \"score\": number (0 to " ++ toString maxPts ++
  "),\n  \"confidence\": \"high\"|\"medium\"|\"low\",\n  \"explanation\": \"detailed explanation of grading\"\n\x7d"

/-- The grading prompt the aggregate handler sends to the oracle for a short
answer question: every weight slot is `questionData.weight || 1`. -/
def gradingPrompt (q : QuestionData) (a : Answer) : String :=
  promptTemplate q.question_text q.model_answer q.rubric_explainer (jsStr a.answerText) (effWeight q)

/-- Result of one oracle call as seen by the aggregate handler: an error HTTP
status (`!response.ok`), a body whose content is not valid JSON
(`JSON.parse` throws), or a parsed JSON object with a numeric `score`, a
`confidence` string and an `explanation` string. -/
inductive OracleResult where
  | httpError
  | parseFail
  | parsed (score : ℚ) (confidence : String) (explanation : String)
deriving DecidableEq

/-- One element of the `gradedResults` array built by the aggregate handler. -/
structure GradedResult where
  id : String
  score : ℚ
  max : ℚ
  confidence : String
  explanation : String
deriving DecidableEq

/-- Body of the per-question loop of the aggregate handler: produces the
`gradedResults` entry for one question.  In every branch the amount added to
`totalScore` equals the `score` field of the pushed entry, so the entry alone
determines the state update. -/
def gradeQuestionA (oracle : String → OracleResult) (answers : List Answer)
    (q : QuestionData) : GradedResult :=
  match answers.find? (fun a => a.questionId = q.id) with
  | none =>
    { id := q.id, score := 0, max := effWeight q, confidence := "high",
      explanation := "No answer provided" }
  | some answer =>
    match q.qtype with
    | .mcq =>
      let correctChoice := q.choices.find? (fun c => c.is_correct)
      if answer.choiceLabel = correctChoice.map (fun c => c.label) then
        { id := q.id, score := effWeight q, max := effWeight q, confidence := "high",
          explanation := "Correct answer!" }
      else
        { id := q.id, score := 0, max := effWeight q, confidence := "high",
          explanation := "Incorrect. The correct answer was " ++
            jsStr (correctChoice.map (fun c => c.label)) ++ ": " ++
            jsStr (correctChoice.map (fun c => c.text)) }
    | .short =>
      match oracle (gradingPrompt q answer) with
      | .httpError =>
        { id := q.id, score := (⌊effWeight q * (1/2)⌋ : ℤ), max := effWeight q,
          confidence := "low",
          explanation := "Auto-grading failed - manual review required" }
      | .parseFail =>
        { id := q.id, score := (⌊effWeight q * (7/10)⌋ : ℤ), max := effWeight q,
          confidence := "low",
          explanation := "Grading response parsing failed - manual review recommended" }
      | .parsed s c e =>
        { id := q.id, score := s, max := effWeight q, confidence := c, explanation := e }

/-- Accumulator of the aggregate handler loop: `totalScore`, `maxPossibleScore`
and the `gradedResults` array. -/
structure AggState where
  totalScore : ℚ
  maxPossibleScore : ℚ
  gradedResults : List GradedResult
deriving DecidableEq

/-- One iteration of the aggregate handler loop. -/
def stepA (oracle : String → OracleResult) (answers : List Answer)
    (st : AggState) (q : QuestionData) : AggState :=
  let r := gradeQuestionA oracle answers q
  { totalScore := st.totalScore + r.score,
    maxPossibleScore := st.maxPossibleScore + effWeight q,
    gradedResults := st.gradedResults ++ [r] }

/-- The aggregate handler grading loop over all questions of the quiz, started
from zero totals and an empty results array. -/
def runA (oracle : String → OracleResult) (questions : List QuestionData)
    (answers : List Answer) : AggState :=
  questions.foldl (stepA oracle answers) ⟨0, 0, []⟩

/-! ## Model B: the per-question variant (first handler of src/unnamed/part_004) -/

/-- Confidence labels; the per-question variant validates the oracle string
against exactly these three values. -/
inductive Confidence where
  | high
  | medium
  | low
deriving DecidableEq

/-- Embedding of the membership test
`['high', 'medium', 'low'].includes(grading.confidence)` together with the
subsequent cast: `none` when the string is not one of the three labels. -/
def parseConfidence : String → Option Confidence
  | "high" => some .high
  | "medium" => some .medium
  | "low" => some .low
  | _ => none

/-- The JSON object produced by `JSON.parse` on the oracle output, before
validation: `score` is `none` when the field is absent or not a number
(`typeof grading.score !== 'number'`), `feedback` is `none` when absent, and
`requiresReview` is the truthiness of the `requiresReview` field. -/
structure RawGrading where
  score : Option ℚ
  feedback : Option String
  confidence : String
  requiresReview : Bool
deriving DecidableEq

/-- Result of one oracle call as seen by `gradeShortAnswer`: an error HTTP
status (`!response.ok`), a body on which `JSON.parse` throws, or a parsed
JSON object. -/
inductive OracleResp where
  | httpError
  | parseError
  | parsed (g : RawGrading)
deriving DecidableEq

/-- The `ShortAnswerGrading` record returned by `gradeShortAnswer`. -/
structure ShortAnswerGrading where
  score : ℚ
  maxScore : ℚ
  feedback : String
  confidence : Confidence
  requiresReview : Bool
deriving DecidableEq

/-- The fallback grading built in the catch block of `gradeShortAnswer`
(reached when `JSON.parse` throws or validation throws
"Invalid grading format"). -/
def fallbackGrading (maxPoints : ℚ) : ShortAnswerGrading :=
  { score := 0, maxScore := maxPoints,
    feedback := "Automatic grading failed. Manual review required.",
    confidence := .low, requiresReview := true }

/-- Embedding of `gradeShortAnswer` of the per-question variant.  The text
arguments only enter the prompt shown to the oracle and do not affect the
result; the oracle call itself is abstracted as the `resp` argument.
Validation rejects a missing or non-numeric score, a score outside
`[0, maxPoints]`, a falsy feedback and an unknown confidence label, throwing
into the catch block; on the valid path the score is additionally clamped
with `Math.min(Math.max(score, 0), maxPoints)` and `requiresReview` is
`grading.requiresReview || grading.confidence === 'low'`. -/
def gradeShortAnswer (questionText studentAnswer sampleAnswer : String)
    (gradingRubric : Option String) (maxPoints : ℚ) (resp : OracleResp) :
    ShortAnswerGrading :=
  match resp with
  | .httpError =>
    { score := 0, maxScore := maxPoints,
      feedback := "Unable to grade automatically. Manual review required.",
      confidence := .low, requiresReview := true }
  | .parseError => fallbackGrading maxPoints
  | .parsed g =>
    match g.score, g.feedback, parseConfidence g.confidence with
    | some s, some fb, some c =>
      if s < 0 ∨ maxPoints < s ∨ fb = "" then fallbackGrading maxPoints
      else
        { score := min (max s 0) maxPoints, maxScore := maxPoints, feedback := fb,
          confidence := c, requiresReview := g.requiresReview || c = .low }
    | _, _, _ => fallbackGrading maxPoints

/-- The `question_type` column of the per-question variant; the handler tests
for exactly these two values. -/
inductive BQType where
  | multiple_choice
  | short_answer
deriving DecidableEq

/-- The joined `questions` row carried by each response of the per-question
variant. -/
structure BQuestion where
  id : String
  question_type : BQType
  points : ℚ
  correct_answer_index : Option ℤ
  question_text : String
  sample_answer : String
  grading_rubric : Option String
deriving DecidableEq

/-- One `question_responses` row with its joined question. -/
structure BResponse where
  student_answer : String
  questions : BQuestion
deriving DecidableEq

/-- Longest prefix of decimal digits of a character list. -/
def takeDigits : List Char → List Char
  | [] => []
  | c :: cs => if c.isDigit then c :: takeDigits cs else []

/-- Longest prefix of hexadecimal digits of a character list. -/
def takeHexDigits : List Char → List Char
  | [] => []
  | c :: cs =>
    if c.isDigit ∨ ("a" ≤ c.toString ∧ c.toString ≤ "f") ∨ ("A" ≤ c.toString ∧ c.toString ≤ "F")
    then c :: takeHexDigits cs else []

/-- Numeric value of one digit character (decimal or hexadecimal). -/
def hexDigitVal (c : Char) : ℕ :=
  if c.isDigit then c.toNat - 48
  else if "a" ≤ c.toString ∧ c.toString ≤ "f" then c.toNat - 87
  else c.toNat - 55

/-- Value of a digit string in the given base. -/
def digitsVal (base : ℕ) (ds : List Char) : ℕ :=
  ds.foldl (fun acc c => acc * base + hexDigitVal c) 0

/-- Embedding of the JavaScript `parseInt(s)` call with no radix argument:
skip leading whitespace, read an optional sign, switch to base 16 after a
`0x`/`0X` prefix, then read the longest digit prefix; `none` models `NaN`
(no digits found). -/
def jsParseInt (s : String) : Option ℤ :=
  let cs := s.data.dropWhile (fun c => c = ' ' ∨ c = '\t' ∨ c = '\n' ∨ c = '\r')
  let signAndRest : ℤ × List Char :=
    match cs with
    | '-' :: rest => (-1, rest)
    | '+' :: rest => (1, rest)
    | _ => (1, cs)
  match signAndRest.2 with
  | '0' :: 'x' :: rest =>
    if takeHexDigits rest = [] then none
    else some (signAndRest.1 * digitsVal 16 (takeHexDigits rest))
  | '0' :: 'X' :: rest =>
    if takeHexDigits rest = [] then none
    else some (signAndRest.1 * digitsVal 16 (takeHexDigits rest))
  | rest =>
    if takeDigits rest = [] then none
    else some (signAndRest.1 * digitsVal 10 (takeDigits rest))

/-- Embedding of `parseInt(response.student_answer) === question.correct_answer_index`:
`NaN` (no parse) compares unequal to everything, as does a missing index
column. -/
def mcqMatches (r : BResponse) : Bool :=
  match jsParseInt r.student_answer, r.questions.correct_answer_index with
  | some a, some b => a = b
  | _, _ => false

/-- One element of the `gradingResults` array of the per-question variant; the
two question types push objects of different shapes. -/
inductive BOutcome where
  | mcqOutcome (questionId : String) (isCorrect : Bool) (pointsEarned maxPoints : ℚ)
  | shortOutcome (questionId : String) (pointsEarned maxPoints : ℚ) (feedback : String)
      (confidence : Confidence) (requiresReview : Bool)
deriving DecidableEq

/-- The points recorded in a grading result entry. -/
def BOutcome.pointsEarned : BOutcome → ℚ
  | .mcqOutcome _ _ p _ => p
  | .shortOutcome _ p _ _ _ _ => p

/-- The review flag of a grading result entry; multiple-choice entries carry
none and never contribute to the submission flag. -/
def BOutcome.reviewFlag : BOutcome → Bool
  | .mcqOutcome _ _ _ _ => false
  | .shortOutcome _ _ _ _ _ rr => rr

/-- The question identifier of a grading result entry. -/
def BOutcome.questionId : BOutcome → String
  | .mcqOutcome qid _ _ _ => qid
  | .shortOutcome qid _ _ _ _ _ => qid

/-- Body of the response loop of the per-question variant, for one response:
returns the pushed `gradingResults` entry, the amount added to `totalScore`
and the contribution to `needsReview`. -/
def gradeResponse (resp : OracleResp) (r : BResponse) : BOutcome × ℚ × Bool :=
  match r.questions.question_type with
  | .multiple_choice =>
    let pointsEarned := if mcqMatches r then r.questions.points else 0
    (.mcqOutcome r.questions.id (mcqMatches r) pointsEarned r.questions.points,
      pointsEarned, false)
  | .short_answer =>
    let grading := gradeShortAnswer r.questions.question_text r.student_answer
      r.questions.sample_answer r.questions.grading_rubric r.questions.points resp
    (.shortOutcome r.questions.id grading.score r.questions.points grading.feedback
      grading.confidence grading.requiresReview,
      grading.score, grading.requiresReview)

/-- Accumulator of the per-question handler loop. -/
structure BState where
  totalScore : ℚ
  maxPossibleScore : ℚ
  needsReview : Bool
  gradingResults : List BOutcome
deriving DecidableEq

/-- One iteration of the response loop; `i` is the position of the response in
the fetched list, used to address the oracle call made for it. -/
def stepB (oracle : ℕ → OracleResp) (i : ℕ) (st : BState) (r : BResponse) : BState :=
  let g := gradeResponse (oracle i) r
  { totalScore := st.totalScore + g.2.1,
    maxPossibleScore := st.maxPossibleScore + r.questions.points,
    needsReview := st.needsReview || g.2.2,
    gradingResults := st.gradingResults ++ [g.1] }

/-- The response loop of the per-question variant, from position `i`. -/
def runBAux (oracle : ℕ → OracleResp) (i : ℕ) (st : BState) :
    List BResponse → BState
  | [] => st
  | r :: rs => runBAux oracle (i + 1) (stepB oracle i st r) rs

/-- The whole grading loop of the per-question variant, started from zero
totals, `needsReview = false` and an empty results array. -/
def runB (oracle : ℕ → OracleResp) (responses : List BResponse) : BState :=
  runBAux oracle 0 ⟨0, 0, false, []⟩ responses

/-! ## Top-level handler dispatch -/

/-- HTTP outcome of the aggregate handler: every lookup failure is thrown and
caught by the single catch block, which answers with status 500 and the error
message; there is no authentication or permission check in this variant. -/
inductive AHandlerResult where
  | internalError (msg : String)
  | ok (result : AggState)
deriving DecidableEq

/-- HTTP status of an aggregate handler outcome. -/
def statusA : AHandlerResult → ℕ
  | .internalError _ => 500
  | .ok _ => 200

/-- Environment of one aggregate handler invocation: the outcome of each
external lookup (`error` models a supabase error object being returned and
thrown) and the oracle. -/
structure AEnv where
  submissionLookup : Except String (String × List Answer)
  questionsLookup : Except String (List QuestionData)
  oracle : String → OracleResult

/-- Embedding of the control flow of the aggregate serve handler around the
grading loop: a failed submission fetch or question fetch is thrown to the
catch block and surfaces as a 500 response. -/
def serveGradeA (env : AEnv) : AHandlerResult :=
  match env.submissionLookup with
  | .error msg => .internalError msg
  | .ok sub =>
    match env.questionsLookup with
    | .error msg => .internalError msg
    | .ok questions => .ok (runA env.oracle questions sub.2)

/-- HTTP outcome of the per-question handler. -/
inductive BHandlerResult where
  | noAuthHeader
  | unauthorized
  | missingSubmissionId
  | submissionNotFound
  | notPermitted
  | responsesFetchFailed
  | ok (result : BState)
deriving DecidableEq

/-- HTTP status of a per-question handler outcome, as set by the source. -/
def statusB : BHandlerResult → ℕ
  | .noAuthHeader => 401
  | .unauthorized => 401
  | .missingSubmissionId => 400
  | .submissionNotFound => 404
  | .notPermitted => 403
  | .responsesFetchFailed => 500
  | .ok _ => 200

/-- The submission row of the per-question variant with its joined quiz (the
embedding assumes the quiz join is populated, which the foreign key
guarantees). -/
structure BSubmission where
  student_id : String
  quizzes_created_by : String
deriving DecidableEq

/-- Environment of one per-question handler invocation. -/
structure BEnv where
  authHeader : Option String
  authUser : Option String
  submissionId : Option String
  submissionLookup : Option BSubmission
  responsesLookup : Option (List BResponse)
  oracle : ℕ → OracleResp

/-- Embedding of the control flow of the per-question serve handler before the
grading loop: missing authorization header (401), failed token validation
(401), missing submission id (400), missing submission (404), caller neither
the submitting student nor the quiz author (403), failed responses fetch
(500); with all lookups resolved, the handler always runs the grading loop to
completion. -/
def serveGradeB (env : BEnv) : BHandlerResult :=
  match env.authHeader with
  | none => .noAuthHeader
  | some _ =>
    match env.authUser with
    | none => .unauthorized
    | some userId =>
      match env.submissionId with
      | none => .missingSubmissionId
      | some _ =>
        match env.submissionLookup with
        | none => .submissionNotFound
        | some submission =>
          if submission.student_id ≠ userId ∧ submission.quizzes_created_by ≠ userId then
            .notPermitted
          else
            match env.responsesLookup with
            | none => .responsesFetchFailed
            | some responses => .ok (runB env.oracle responses)

/-! ## Structure lemmas for the two grading loops -/

/-- Closed form of the aggregate loop from an arbitrary start state. -/
theorem foldl_stepA (oracle : String → OracleResult) (answers : List Answer)
    (st : AggState) (qs : List QuestionData) :
    qs.foldl (stepA oracle answers) st =
      { totalScore := st.totalScore + ((qs.map (gradeQuestionA oracle answers)).map GradedResult.score).sum,
        maxPossibleScore := st.maxPossibleScore + (qs.map effWeight).sum,
        gradedResults := st.gradedResults ++ qs.map (gradeQuestionA oracle answers) } := by
  induction qs generalizing st with
  | nil => simp
  | cons q qs ih =>
    simp only [List.foldl_cons, ih, List.map_cons, List.sum_cons, List.cons_append]
    simp [stepA, add_assoc]

/-- Closed form of the aggregate grading loop. -/
theorem runA_spec (oracle : String → OracleResult) (qs : List QuestionData)
    (answers : List Answer) :
    runA oracle qs answers =
      { totalScore := ((qs.map (gradeQuestionA oracle answers)).map GradedResult.score).sum,
        maxPossibleScore := (qs.map effWeight).sum,
        gradedResults := qs.map (gradeQuestionA oracle answers) } := by
  simp [runA, foldl_stepA]

/-- The per-response grading data of the per-question loop, with the oracle
call of the response at position `i` addressed by `i`. -/
def gradeList (oracle : ℕ → OracleResp) : ℕ → List BResponse → List (BOutcome × ℚ × Bool)
  | _, [] => []
  | i, r :: rs => gradeResponse (oracle i) r :: gradeList oracle (i + 1) rs

/-- Closed form of the per-question loop from an arbitrary start state. -/
theorem runBAux_spec (oracle : ℕ → OracleResp) (i : ℕ) (st : BState)
    (rs : List BResponse) :
    runBAux oracle i st rs =
      { totalScore := st.totalScore + ((gradeList oracle i rs).map (fun g => g.2.1)).sum,
        maxPossibleScore := st.maxPossibleScore + (rs.map (fun r => r.questions.points)).sum,
        needsReview := st.needsReview || (gradeList oracle i rs).any (fun g => g.2.2),
        gradingResults := st.gradingResults ++ (gradeList oracle i rs).map (fun g => g.1) } := by
  induction rs generalizing i st with
  | nil => simp [runBAux, gradeList]
  | cons r rs ih =>
    simp only [runBAux, gradeList, ih, List.map_cons, List.sum_cons, List.any_cons,
      List.cons_append]
    simp [stepB, add_assoc, Bool.or_assoc]

/-- Closed form of the per-question grading loop. -/
theorem runB_spec (oracle : ℕ → OracleResp) (rs : List BResponse) :
    runB oracle rs =
      { totalScore := ((gradeList oracle 0 rs).map (fun g => g.2.1)).sum,
        maxPossibleScore := (rs.map (fun r => r.questions.points)).sum,
        needsReview := (gradeList oracle 0 rs).any (fun g => g.2.2),
        gradingResults := (gradeList oracle 0 rs).map (fun g => g.1) } := by
  simp [runB, runBAux_spec]

/-- The defaulted weight is never zero. -/
theorem effWeight_ne_zero (q : QuestionData) : effWeight q ≠ 0 := by
  unfold effWeight
  match q.weight with
  | none => norm_num
  | some w =>
    by_cases hw : w = 0 <;> simp [hw]

/-- The score added to `totalScore` for a response equals the points recorded
in its pushed grading entry. -/
theorem gradeResponse_points (resp : OracleResp) (r : BResponse) :
    (gradeResponse resp r).2.1 = (gradeResponse resp r).1.pointsEarned := by
  unfold gradeResponse
  match h : r.questions.question_type with
  | .multiple_choice => simp [BOutcome.pointsEarned]
  | .short_answer => simp [BOutcome.pointsEarned]

/-- The review contribution of a response equals the review flag recorded in
its pushed grading entry. -/
theorem gradeResponse_review (resp : OracleResp) (r : BResponse) :
    (gradeResponse resp r).2.2 = (gradeResponse resp r).1.reviewFlag := by
  unfold gradeResponse
  match h : r.questions.question_type with
  | .multiple_choice => simp [BOutcome.reviewFlag]
  | .short_answer => simp [BOutcome.reviewFlag]

/-- The question identifier recorded in the pushed grading entry of a response
is the identifier of its joined question. -/
theorem gradeResponse_id (resp : OracleResp) (r : BResponse) :
    (gradeResponse resp r).1.questionId = r.questions.id := by
  unfold gradeResponse
  match h : r.questions.question_type with
  | .multiple_choice => simp [BOutcome.questionId]
  | .short_answer => simp [BOutcome.questionId]

/-- Two oracles that agree on the addressed range produce the same per-response
grading data. -/
theorem gradeList_congr (o o2 : ℕ → OracleResp) (i : ℕ) (rs : List BResponse)
    (h : ∀ j, i ≤ j → j < i + rs.length → o j = o2 j) :
    gradeList o i rs = gradeList o2 i rs := by
  induction rs generalizing i with
  | nil => simp [gradeList]
  | cons r rs ih =>
    have hlen : (r :: rs).length = rs.length + 1 := by simp
    rw [gradeList, gradeList, h i le_rfl (by omega),
      ih (i + 1) (fun j hj1 hj2 => h j (by omega) (by rw [hlen]; omega))]

/-- Splitting the per-response grading data at a list decomposition. -/
theorem gradeList_append (o : ℕ → OracleResp) (i : ℕ) (l1 l2 : List BResponse) :
    gradeList o i (l1 ++ l2) = gradeList o i l1 ++ gradeList o (i + l1.length) l2 := by
  induction l1 generalizing i with
  | nil => simp [gradeList]
  | cons r rs ih =>
    simp only [List.cons_append, gradeList, List.append_eq]
    rw [ih (i + 1)]
    have harith : i + 1 + rs.length = i + (r :: rs).length := by simp; omega
    rw [harith]

/-- The per-response grading data has one entry per response. -/
theorem gradeList_length (o : ℕ → OracleResp) (i : ℕ) (rs : List BResponse) :
    (gradeList o i rs).length = rs.length := by
  induction rs generalizing i with
  | nil => simp [gradeList]
  | cons r rs ih => simp [gradeList, ih]

/-- Unfolded form of `gradeShortAnswer` on a fully parsed oracle object, as a
rewriting aid. -/
theorem gradeShortAnswer_parsed (qt sa sam : String) (rub : Option String) (w : ℚ)
    (s : ℚ) (fb : String) (c : String) (rr : Bool) (conf : Confidence)
    (hc : parseConfidence c = some conf) :
    gradeShortAnswer qt sa sam rub w (.parsed ⟨some s, some fb, c, rr⟩) =
      if s < 0 ∨ w < s ∨ fb = "" then fallbackGrading w
      else
        { score := min (max s 0) w, maxScore := w, feedback := fb,
          confidence := conf, requiresReview := rr || conf = .low } := by
  simp only [gradeShortAnswer, hc]

/-- Any parsed oracle object that fails validation (missing or non-numeric
score, missing feedback, unknown confidence label) lands in the catch
fallback. -/
theorem gradeShortAnswer_invalid_shape (qt sa sam : String) (rub : Option String)
    (w : ℚ) (g : RawGrading)
    (h : g.score = none ∨ g.feedback = none ∨ parseConfidence g.confidence = none) :
    gradeShortAnswer qt sa sam rub w (.parsed g) = fallbackGrading w := by
  obtain ⟨s, fb, c, rr⟩ := g
  simp only at h
  rcases s with _ | s
  · rfl
  · rcases fb with _ | fb
    · rfl
    · rcases h with h | h | h
      · exact absurd h (by simp)
      · exact absurd h (by simp)
      · simp only [gradeShortAnswer, h]

/-! ## C1: awarded score bounds -/

/-- C1 counterexample.  The claim states that for every graded question the
recorded score satisfies `0 ≤ score ≤ weight` for every possible oracle
response.  In the aggregate variant a successfully parsed oracle score is
recorded without validation: for a weight-2 short answer question and an
oracle answering with score 5, the submission result records score 5 against
max 2, violating the upper bound. -/
theorem oracle_score_recorded_unvalidated :
    (runA (fun _ => .parsed 5 "high" "ok")
        [⟨"q1", .short, [], "qt", "ma", "rb", some 2⟩]
        [⟨"q1", none, some "student text"⟩]).gradedResults =
      [⟨"q1", 5, 2, "high", "ok"⟩] ∧
    ¬ ((5 : ℚ) ≤ 2) := by
  constructor
  · simp [runA_spec, gradeQuestionA, effWeight, List.find?]
  · norm_num

/-- C1 amended: in the per-question variant `gradeShortAnswer` always returns
a score in `[0, maxPoints]`, whatever the oracle does; in the aggregate
variant the bound holds for multiple-choice questions, for missing answers
and for both oracle-failure fallbacks, but a parsed oracle score is recorded
unvalidated. -/
theorem score_bounds_per_variant :
    (∀ (qt sa sam : String) (rub : Option String) (w : ℚ) (resp : OracleResp),
      0 ≤ w →
      0 ≤ (gradeShortAnswer qt sa sam rub w resp).score ∧
        (gradeShortAnswer qt sa sam rub w resp).score ≤ w) ∧
    (∀ (o : String → OracleResult) (ans : List Answer) (q : QuestionData),
      0 < effWeight q →
      (q.qtype = .mcq ∨ ∀ p s c e, o p ≠ .parsed s c e) →
      0 ≤ (gradeQuestionA o ans q).score ∧
        (gradeQuestionA o ans q).score ≤ effWeight q) := by
  constructor
  · intro qt sa sam rub w resp hw
    rcases resp with _ | _ | g
    · exact ⟨le_refl 0, hw⟩
    · exact ⟨le_refl 0, hw⟩
    · rcases hshape : g.score with _ | s
      · rw [gradeShortAnswer_invalid_shape qt sa sam rub w g (Or.inl hshape)]
        exact ⟨le_refl 0, hw⟩
      · rcases hfb : g.feedback with _ | fb
        · rw [gradeShortAnswer_invalid_shape qt sa sam rub w g (Or.inr (Or.inl hfb))]
          exact ⟨le_refl 0, hw⟩
        · rcases hc : parseConfidence g.confidence with _ | conf
          · rw [gradeShortAnswer_invalid_shape qt sa sam rub w g (Or.inr (Or.inr hc))]
            exact ⟨le_refl 0, hw⟩
          · have hg : g = ⟨some s, some fb, g.confidence, g.requiresReview⟩ := by
              cases g; simp_all
            rw [hg] at hc ⊢
            rw [gradeShortAnswer_parsed qt sa sam rub w s fb _ _ conf hc]
            by_cases hcond : s < 0 ∨ w < s ∨ fb = ""
            · simp only [if_pos hcond, fallbackGrading]
              exact ⟨le_refl 0, hw⟩
            · simp only [if_neg hcond]
              exact ⟨le_min (le_max_right s 0) hw, min_le_right _ _⟩
  · intro o ans q hpos hcase
    rcases hfind : ans.find? (fun a => a.questionId = q.id) with _ | answer
    · simp only [gradeQuestionA, hfind]
      exact ⟨le_refl 0, le_of_lt hpos⟩
    · rcases hq : q.qtype with _ | _
      · simp only [gradeQuestionA, hfind, hq]
        by_cases hlab : answer.choiceLabel =
            ((q.choices.find? (fun c => c.is_correct)).map (fun c => c.label))
        · simp only [if_pos hlab]
          exact ⟨le_of_lt hpos, le_refl _⟩
        · simp only [if_neg hlab]
          exact ⟨le_refl 0, le_of_lt hpos⟩
      · rcases hcase with hmcq | hnoparse
        · rw [hq] at hmcq
          exact absurd hmcq (by simp)
        · simp only [gradeQuestionA, hfind, hq]
          rcases horc : o (gradingPrompt q answer) with _ | _ | ⟨s, c, e⟩
          · show (0 : ℚ) ≤ ((⌊effWeight q * (1/2)⌋ : ℤ) : ℚ) ∧
              ((⌊effWeight q * (1/2)⌋ : ℤ) : ℚ) ≤ effWeight q
            refine ⟨?_, ?_⟩
            · have h0 : (0 : ℚ) ≤ effWeight q * (1/2) := by positivity
              exact_mod_cast Int.floor_nonneg.mpr h0
            · calc ((⌊effWeight q * (1/2)⌋ : ℤ) : ℚ) ≤ effWeight q * (1/2) :=
                  Int.floor_le _
                _ ≤ effWeight q := by nlinarith
          · show (0 : ℚ) ≤ ((⌊effWeight q * (7/10)⌋ : ℤ) : ℚ) ∧
              ((⌊effWeight q * (7/10)⌋ : ℤ) : ℚ) ≤ effWeight q
            refine ⟨?_, ?_⟩
            · have h0 : (0 : ℚ) ≤ effWeight q * (7/10) := by positivity
              exact_mod_cast Int.floor_nonneg.mpr h0
            · calc ((⌊effWeight q * (7/10)⌋ : ℤ) : ℚ) ≤ effWeight q * (7/10) :=
                  Int.floor_le _
                _ ≤ effWeight q := by nlinarith
          · exact absurd horc (hnoparse _ s c e)

/-- Closed instance of the amended C1 bounds at concrete inputs. -/
theorem score_bounds_per_variant_instance :
    (0 ≤ (gradeShortAnswer "qt" "sa" "ma" none 2
        (.parsed ⟨some 7, some "fb", "high", false⟩)).score ∧
      (gradeShortAnswer "qt" "sa" "ma" none 2
        (.parsed ⟨some 7, some "fb", "high", false⟩)).score ≤ 2) ∧
    (0 ≤ (gradeQuestionA (fun _ => .httpError) [⟨"q1", none, some "x"⟩]
        ⟨"q1", .short, [], "qt", "ma", "rb", some 2⟩).score ∧
      (gradeQuestionA (fun _ => .httpError) [⟨"q1", none, some "x"⟩]
        ⟨"q1", .short, [], "qt", "ma", "rb", some 2⟩).score ≤
        effWeight ⟨"q1", .short, [], "qt", "ma", "rb", some 2⟩) :=
  ⟨score_bounds_per_variant.1 "qt" "sa" "ma" none 2
      (.parsed ⟨some 7, some "fb", "high", false⟩) (by norm_num),
    score_bounds_per_variant.2 (fun _ => .httpError) [⟨"q1", none, some "x"⟩]
      ⟨"q1", .short, [], "qt", "ma", "rb", some 2⟩
      (by norm_num [effWeight])
      (Or.inr (fun p s c e => by simp))⟩

/-! ## C2: handling of out-of-range oracle scores -/

/-- C2 counterexample.  The claim states that an oracle score outside
`[0, weight]` is clamped to the nearest bound (the spec scenario expects
score 5 on a weight-2 question to become 2).  The per-question variant
instead rejects it during validation and lands in the catch fallback: the
outcome records score 0, not 2. -/
theorem out_of_range_score_not_clamped :
    gradeShortAnswer "qt" "sa" "ma" none 2
        (.parsed ⟨some 5, some "good work", "high", false⟩) =
      ⟨0, 2, "Automatic grading failed. Manual review required.", .low, true⟩ ∧
    ¬ ((0 : ℚ) = 2) := by
  constructor
  · rw [gradeShortAnswer_parsed "qt" "sa" "ma" none 2 5 "good work" "high" false .high rfl]
    rw [if_pos (by norm_num)]
    rfl
  · norm_num

/-- C2 amended: an oracle score outside `[0, weight]` is rejected by the
validation of `gradeShortAnswer` and routed through the catch fallback
(score 0, confidence Low, review required), for every feedback text,
confidence string and review field; no clamping to the nearest bound takes
place (the clamping expression only runs on scores already inside the
range). -/
theorem out_of_range_score_rejected_to_fallback
    (qt sa sam : String) (rub : Option String) (w s : ℚ) (fb : String)
    (c : String) (rr : Bool) (hout : s < 0 ∨ w < s) :
    gradeShortAnswer qt sa sam rub w (.parsed ⟨some s, some fb, c, rr⟩) =
      { score := 0, maxScore := w,
        feedback := "Automatic grading failed. Manual review required.",
        confidence := .low, requiresReview := true } := by
  rcases hc : parseConfidence c with _ | conf
  · exact gradeShortAnswer_invalid_shape qt sa sam rub w _ (Or.inr (Or.inr hc))
  · rw [gradeShortAnswer_parsed qt sa sam rub w s fb c rr conf hc,
      if_pos (by tauto)]
    rfl

/-- Closed instance of the amended C2 behaviour: oracle score 5 on a weight-2
question yields the zero-score fallback. -/
theorem out_of_range_score_rejected_to_fallback_instance :
    gradeShortAnswer "question" "answer" "model" (some "rubric") 2
        (.parsed ⟨some 5, some "fb", "medium", true⟩) =
      { score := 0, maxScore := 2,
        feedback := "Automatic grading failed. Manual review required.",
        confidence := .low, requiresReview := true } :=
  out_of_range_score_rejected_to_fallback "question" "answer" "model" (some "rubric")
    2 5 "fb" "medium" true (Or.inr (by norm_num))

/-! ## C3: oracle failure fallback -/

/-- C3 counterexample.  The claim states that every oracle failure mode awards
one fixed fraction, 50 percent, of the weight.  In the aggregate variant a
parse failure awards `Math.floor(weight * 0.7)`: on a weight-10 question the
recorded score is 7, not 5. -/
theorem parse_failure_fallback_not_half :
    (runA (fun _ => .parseFail) [⟨"q1", .short, [], "qt", "ma", "rb", some 10⟩]
        [⟨"q1", none, some "text"⟩]).gradedResults =
      [⟨"q1", 7, 10, "low", "Grading response parsing failed - manual review recommended"⟩] ∧
    ¬ ((7 : ℚ) = 10 * (1/2)) := by
  constructor
  · simp only [runA_spec, List.map_cons, List.map_nil]
    simp [gradeQuestionA, effWeight, List.find?]
    norm_num
  · norm_num

/-- C3 amended: no handled oracle failure leaves a question unscored, but the
fallback award is not one fixed 50 percent fraction.  The aggregate variant
awards `floor(weight * 0.5)` with a fixed low-confidence message on an error
status and `floor(weight * 0.7)` with a different message on a parse
failure; the per-question variant awards 0 with a fixed low-confidence
manual-review message in both failure modes; and the aggregate loop always
records exactly one outcome per question. -/
theorem oracle_failure_fallback_outcomes :
    (∀ (o : String → OracleResult) (ans : List Answer) (q : QuestionData) (a : Answer),
      ans.find? (fun x => x.questionId = q.id) = some a → q.qtype = .short →
      o (gradingPrompt q a) = .httpError →
      gradeQuestionA o ans q =
        ⟨q.id, ((⌊effWeight q * (1/2)⌋ : ℤ) : ℚ), effWeight q, "low",
          "Auto-grading failed - manual review required"⟩) ∧
    (∀ (o : String → OracleResult) (ans : List Answer) (q : QuestionData) (a : Answer),
      ans.find? (fun x => x.questionId = q.id) = some a → q.qtype = .short →
      o (gradingPrompt q a) = .parseFail →
      gradeQuestionA o ans q =
        ⟨q.id, ((⌊effWeight q * (7/10)⌋ : ℤ) : ℚ), effWeight q, "low",
          "Grading response parsing failed - manual review recommended"⟩) ∧
    (∀ (qt sa sam : String) (rub : Option String) (w : ℚ),
      gradeShortAnswer qt sa sam rub w .httpError =
        ⟨0, w, "Unable to grade automatically. Manual review required.", .low, true⟩) ∧
    (∀ (qt sa sam : String) (rub : Option String) (w : ℚ),
      gradeShortAnswer qt sa sam rub w .parseError =
        ⟨0, w, "Automatic grading failed. Manual review required.", .low, true⟩) ∧
    (∀ (o : String → OracleResult) (qs : List QuestionData) (ans : List Answer),
      (runA o qs ans).gradedResults.length = qs.length) := by
  refine ⟨?_, ?_, ?_, ?_, ?_⟩
  · intro o ans q a hfind hq horc
    simp only [gradeQuestionA, hfind, hq, horc]
  · intro o ans q a hfind hq horc
    simp only [gradeQuestionA, hfind, hq, horc]
  · intro qt sa sam rub w
    rfl
  · intro qt sa sam rub w
    rfl
  · intro o qs ans
    simp [runA_spec]

/-- Closed instance of the amended C3 fallbacks at concrete inputs: an error
status on a weight-2 question awards floor 1 in the aggregate variant and 0
in the per-question variant. -/
theorem oracle_failure_fallback_outcomes_instance :
    gradeQuestionA (fun _ => .httpError) [⟨"q1", none, some "text"⟩]
        ⟨"q1", .short, [], "qt", "ma", "rb", some 2⟩ =
      ⟨"q1", ((⌊effWeight ⟨"q1", .short, [], "qt", "ma", "rb", some 2⟩ * (1/2)⌋ : ℤ) : ℚ),
        effWeight ⟨"q1", .short, [], "qt", "ma", "rb", some 2⟩, "low",
        "Auto-grading failed - manual review required"⟩ ∧
    gradeShortAnswer "qt" "sa" "ma" none 2 .httpError =
      ⟨0, 2, "Unable to grade automatically. Manual review required.", .low, true⟩ :=
  ⟨oracle_failure_fallback_outcomes.1 (fun _ => .httpError) [⟨"q1", none, some "text"⟩]
      ⟨"q1", .short, [], "qt", "ma", "rb", some 2⟩ ⟨"q1", none, some "text"⟩
      (by simp [List.find?]) rfl rfl,
    oracle_failure_fallback_outcomes.2.2.1 "qt" "sa" "ma" none 2⟩

/-! ## C5: aggregate invariants -/

/-- Per-response score increments coincide with the points recorded in the
pushed grading entries. -/
theorem gradeList_points (o : ℕ → OracleResp) (i : ℕ) (rs : List BResponse) :
    (gradeList o i rs).map (fun g => g.2.1) =
      ((gradeList o i rs).map (fun g => g.1)).map BOutcome.pointsEarned := by
  induction rs generalizing i with
  | nil => simp [gradeList]
  | cons r rs ih => simp [gradeList, ih, gradeResponse_points]

/-- The disjunction of the per-response review contributions coincides with
the disjunction of the review flags of the pushed grading entries. -/
theorem gradeList_review (o : ℕ → OracleResp) (i : ℕ) (rs : List BResponse) :
    (gradeList o i rs).any (fun g => g.2.2) =
      ((gradeList o i rs).map (fun g => g.1)).any BOutcome.reviewFlag := by
  induction rs generalizing i with
  | nil => simp [gradeList]
  | cons r rs ih => simp [gradeList, ih, gradeResponse_review]

/-- The grading entries carry the question identifiers of the responses, in
order. -/
theorem gradeList_ids (o : ℕ → OracleResp) (i : ℕ) (rs : List BResponse) :
    ((gradeList o i rs).map (fun g => g.1)).map BOutcome.questionId =
      rs.map (fun r => r.questions.id) := by
  induction rs generalizing i with
  | nil => simp [gradeList]
  | cons r rs ih => simp [gradeList, ih, gradeResponse_id]

/-- Every branch of the aggregate per-question grading records the identifier
of the graded question. -/
theorem gradeQuestionA_id (o : String → OracleResult) (ans : List Answer)
    (q : QuestionData) : (gradeQuestionA o ans q).id = q.id := by
  rcases hfind : ans.find? (fun a => a.questionId = q.id) with _ | answer
  · simp only [gradeQuestionA, hfind]
  · rcases hq : q.qtype with _ | _
    · simp only [gradeQuestionA, hfind, hq]
      by_cases hlab : answer.choiceLabel =
          ((q.choices.find? (fun c => c.is_correct)).map (fun c => c.label))
      · simp only [if_pos hlab]
      · simp only [if_neg hlab]
    · rcases horc : o (gradingPrompt q answer) with _ | _ | ⟨s, c, e⟩ <;>
        simp only [gradeQuestionA, hfind, hq, horc]

/-- On a question whose stored weight is a positive number, the default
expression `weight || 1` returns the stored weight itself. -/
theorem effWeight_of_pos (q : QuestionData) (w : ℚ) (hq : q.weight = some w)
    (hw : 0 < w) : effWeight q = q.weight.getD 0 := by
  simp [effWeight, hq, ne_of_gt hw]

/-- C5: grading invariants of the submission result.  In the per-question
variant the total score is the sum of the recorded points, the max score is
the sum of the points of the iterated questions, the needs-review flag is
the disjunction of the per-entry review flags, and there is one entry per
question in iteration order; in the aggregate variant (which records no
needs-review flag) the total is the sum of the recorded scores, the max is
the sum of the stored weights when all weights are positive, and the entries
are in quiz order. -/
theorem aggregate_invariants (oracleB : ℕ → OracleResp) (rs : List BResponse)
    (oracleA : String → OracleResult) (qs : List QuestionData) (ans : List Answer)
    (hw : ∀ q ∈ qs, ∃ w, q.weight = some w ∧ 0 < w) :
    ((runB oracleB rs).totalScore =
        ((runB oracleB rs).gradingResults.map BOutcome.pointsEarned).sum ∧
      (runB oracleB rs).maxPossibleScore = (rs.map (fun r => r.questions.points)).sum ∧
      (runB oracleB rs).needsReview =
        (runB oracleB rs).gradingResults.any BOutcome.reviewFlag ∧
      (runB oracleB rs).gradingResults.map BOutcome.questionId =
        rs.map (fun r => r.questions.id)) ∧
    ((runA oracleA qs ans).totalScore =
        ((runA oracleA qs ans).gradedResults.map GradedResult.score).sum ∧
      (runA oracleA qs ans).maxPossibleScore =
        (qs.map (fun q => q.weight.getD 0)).sum ∧
      (runA oracleA qs ans).gradedResults.map GradedResult.id =
        qs.map QuestionData.id) := by
  refine ⟨⟨?_, ?_, ?_, ?_⟩, ?_, ?_, ?_⟩
  · simp only [runB_spec]
    exact congrArg List.sum (gradeList_points oracleB 0 rs)
  · simp only [runB_spec]
  · simp only [runB_spec]
    exact gradeList_review oracleB 0 rs
  · simp only [runB_spec]
    exact gradeList_ids oracleB 0 rs
  · simp only [runA_spec]
  · simp only [runA_spec]
    refine congrArg List.sum (List.map_congr_left ?_)
    intro q hq
    obtain ⟨w, hqw, hwpos⟩ := hw q hq
    exact effWeight_of_pos q w hqw hwpos
  · simp only [runA_spec, List.map_map]
    refine List.map_congr_left ?_
    intro q _
    exact gradeQuestionA_id oracleA ans q

/-- Closed instance of the C5 invariants on a two-question submission with one
oracle failure. -/
theorem aggregate_invariants_instance :
    ((runB (fun _ => .httpError)
        [⟨"1", ⟨"qa", .multiple_choice, 1, some 1, "qt", "sa", none⟩⟩,
          ⟨"text", ⟨"qb", .short_answer, 2, none, "qt2", "sa2", none⟩⟩]).totalScore =
      ((runB (fun _ => .httpError)
        [⟨"1", ⟨"qa", .multiple_choice, 1, some 1, "qt", "sa", none⟩⟩,
          ⟨"text", ⟨"qb", .short_answer, 2, none, "qt2", "sa2", none⟩⟩]).gradingResults.map
            BOutcome.pointsEarned).sum) ∧
    ((runA (fun _ => .httpError) [⟨"q1", .mcq, [⟨"A", "t", true⟩], "qt", "ma", "rb", some 1⟩]
        []).maxPossibleScore =
      ([⟨"q1", .mcq, [⟨"A", "t", true⟩], "qt", "ma", "rb", some 1⟩].map
        (fun q => QuestionData.weight q |>.getD 0)).sum) :=
  ⟨(aggregate_invariants (fun _ => .httpError)
      [⟨"1", ⟨"qa", .multiple_choice, 1, some 1, "qt", "sa", none⟩⟩,
        ⟨"text", ⟨"qb", .short_answer, 2, none, "qt2", "sa2", none⟩⟩]
      (fun _ => .httpError) [⟨"q1", .mcq, [⟨"A", "t", true⟩], "qt", "ma", "rb", some 1⟩] []
      (by intro q hq; simp at hq; exact ⟨1, by simp [hq], by norm_num⟩)).1.1,
    (aggregate_invariants (fun _ => .httpError)
      [⟨"1", ⟨"qa", .multiple_choice, 1, some 1, "qt", "sa", none⟩⟩,
        ⟨"text", ⟨"qb", .short_answer, 2, none, "qt2", "sa2", none⟩⟩]
      (fun _ => .httpError) [⟨"q1", .mcq, [⟨"A", "t", true⟩], "qt", "ma", "rb", some 1⟩] []
      (by intro q hq; simp at hq; exact ⟨1, by simp [hq], by norm_num⟩)).2.2.1⟩

/-! ## C4: partial-failure isolation -/

/-- Dropping past the distinguished middle element of two lists that differ
only there yields the same suffix. -/
theorem drop_succ_middle {α : Type _} (A B : List α) (x y : α) (n : ℕ)
    (h : A.length = n) :
    (A ++ x :: B).drop (n + 1) = (A ++ y :: B).drop (n + 1) := by
  have hx : (A ++ [x]).length = n + 1 := by simp [h]
  have hy : (A ++ [y]).length = n + 1 := by simp [h]
  rw [List.append_cons A x B, List.append_cons A y B,
    List.drop_left' hx, List.drop_left' hy]

/-- Indexing at the position of the distinguished middle element. -/
theorem getElem_middle {α : Type _} (A B : List α) (x : α) (n : ℕ)
    (h : A.length = n) :
    (A ++ x :: B)[n]? = some x := by
  rw [List.getElem?_append_right (by omega)]
  simp [h]

/-- C4: if the oracle call fails (error status) for exactly one short answer
response, at position `pre.length`, while a comparison oracle agrees
everywhere else, grading still completes with one outcome per response, all
other outcomes are identical to the run without that failure, the failed
question receives the degraded zero-score fallback outcome, and the
submission needs-review flag is true. -/
theorem partial_failure_isolation (o o2 : ℕ → OracleResp) (pre post : List BResponse)
    (r : BResponse) (htype : r.questions.question_type = .short_answer)
    (hfail : o pre.length = .httpError)
    (hagree : ∀ j, j ≠ pre.length → o j = o2 j) :
    (runB o (pre ++ r :: post)).gradingResults.length = (pre ++ r :: post).length ∧
    (runB o (pre ++ r :: post)).gradingResults.take pre.length =
      (runB o2 (pre ++ r :: post)).gradingResults.take pre.length ∧
    (runB o (pre ++ r :: post)).gradingResults.drop (pre.length + 1) =
      (runB o2 (pre ++ r :: post)).gradingResults.drop (pre.length + 1) ∧
    (runB o (pre ++ r :: post)).gradingResults[pre.length]? =
      some (.shortOutcome r.questions.id 0 r.questions.points
        "Unable to grade automatically. Manual review required." .low true) ∧
    (runB o (pre ++ r :: post)).needsReview = true := by
  have hmid : gradeResponse (o pre.length) r =
      (.shortOutcome r.questions.id 0 r.questions.points
        "Unable to grade automatically. Manual review required." .low true, 0, true) := by
    rw [hfail]
    simp only [gradeResponse, htype]
    rfl
  have hdecomp : gradeList o 0 (pre ++ r :: post) =
      gradeList o 0 pre ++ gradeResponse (o pre.length) r ::
        gradeList o (pre.length + 1) post := by
    rw [gradeList_append]
    simp [gradeList]
  have hdecomp2 : gradeList o2 0 (pre ++ r :: post) =
      gradeList o2 0 pre ++ gradeResponse (o2 pre.length) r ::
        gradeList o2 (pre.length + 1) post := by
    rw [gradeList_append]
    simp [gradeList]
  have hpre : gradeList o 0 pre = gradeList o2 0 pre :=
    gradeList_congr o o2 0 pre (fun j hj1 hj2 => hagree j (by omega))
  have hpost : gradeList o (pre.length + 1) post = gradeList o2 (pre.length + 1) post :=
    gradeList_congr o o2 (pre.length + 1) post (fun j hj1 hj2 => hagree j (by omega))
  have hlen : ((gradeList o2 0 pre).map (fun g => g.1)).length = pre.length := by
    simp [gradeList_length]
  refine ⟨?_, ?_, ?_, ?_, ?_⟩
  · simp [runB_spec, gradeList_length]
  · simp only [runB_spec, hdecomp, hdecomp2, hpre, List.map_append, List.map_cons]
    rw [List.take_left' hlen, List.take_left' hlen]
  · simp only [runB_spec, hdecomp, hdecomp2, hpre, hpost, List.map_append, List.map_cons]
    exact drop_succ_middle _ _ _ _ pre.length hlen
  · simp only [runB_spec, hdecomp, hpre, hmid, List.map_append, List.map_cons]
    exact getElem_middle _ _ _ pre.length hlen
  · simp only [runB_spec, hdecomp, hmid, List.any_append, List.any_cons]
    simp

/-- Closed instance of C4 on a two-response submission whose second response
has a failing oracle call. -/
theorem partial_failure_isolation_instance :
    (runB (fun _ => .httpError)
        [⟨"1", ⟨"qa", .multiple_choice, 1, some 1, "qt", "sa", none⟩⟩,
          ⟨"text", ⟨"qb", .short_answer, 2, none, "qt2", "sa2", none⟩⟩]).gradingResults[1]? =
      some (.shortOutcome "qb" 0 2
        "Unable to grade automatically. Manual review required." .low true) ∧
    (runB (fun _ => .httpError)
        [⟨"1", ⟨"qa", .multiple_choice, 1, some 1, "qt", "sa", none⟩⟩,
          ⟨"text", ⟨"qb", .short_answer, 2, none, "qt2", "sa2", none⟩⟩]).needsReview = true := by
  have h := partial_failure_isolation (fun _ => .httpError)
    (fun j => if j = 1 then .parsed ⟨some 1, some "fb", "high", false⟩ else .httpError)
    [⟨"1", ⟨"qa", .multiple_choice, 1, some 1, "qt", "sa", none⟩⟩] []
    ⟨"text", ⟨"qb", .short_answer, 2, none, "qt2", "sa2", none⟩⟩
    rfl rfl (fun j hj => by simp at hj; simp [hj])
  exact ⟨h.2.2.2.1, h.2.2.2.2⟩

/-! ## C6: multiple-choice grading -/

/-- C6 counterexample.  The claim states that full credit is awarded if and
only if the submitted label is byte-exactly equal to the label of the
correct option, so at most one submitted string can earn full credit.  The
per-question variant compares `parseInt(student_answer)` numerically with
the correct option index: the two byte-distinct answers "2" and "02" both
earn the full 1 point on a question whose correct index is 2. -/
theorem mcq_nonexact_label_full_credit :
    (gradeResponse .httpError
        ⟨"2", ⟨"qa", .multiple_choice, 1, some 2, "qt", "sa", none⟩⟩).2.1 = 1 ∧
    (gradeResponse .httpError
        ⟨"02", ⟨"qa", .multiple_choice, 1, some 2, "qt", "sa", none⟩⟩).2.1 = 1 ∧
    ("2" : String) ≠ "02" := by
  refine ⟨?_, ?_, by decide⟩
  · simp only [gradeResponse]
    rw [if_pos (by decide)]
  · simp only [gradeResponse]
    rw [if_pos (by decide)]

/-- C6 amended: in the aggregate variant, for a Choice question with an option
marked correct, the awarded score equals the defaulted full weight exactly
when an answer is found whose label is byte-for-byte the correct label; any
other or missing answer scores 0, and the confidence is always the string
high.  In the per-question variant the submitted answer is instead parsed
with parseInt and compared numerically against the correct option index. -/
theorem choice_grading_rules :
    (∀ (o : String → OracleResult) (ans : List Answer) (q : QuestionData) (c : ChoiceOpt),
      q.qtype = .mcq → q.choices.find? (fun ch => ch.is_correct) = some c →
      (((gradeQuestionA o ans q).score = effWeight q) ↔
        (∃ a, ans.find? (fun x => x.questionId = q.id) = some a ∧
          a.choiceLabel = some c.label)) ∧
      (gradeQuestionA o ans q).confidence = "high") ∧
    (∀ (resp : OracleResp) (r : BResponse),
      r.questions.question_type = .multiple_choice →
      (gradeResponse resp r).2.1 =
        if mcqMatches r then r.questions.points else 0) := by
  constructor
  · intro o ans q c hq hcorrect
    rcases hfind : ans.find? (fun x => x.questionId = q.id) with _ | a
    · refine ⟨?_, ?_⟩
      · simp only [gradeQuestionA, hfind]
        constructor
        · intro h0
          exact absurd h0.symm (effWeight_ne_zero q)
        · rintro ⟨a, ha, _⟩
          exact absurd ha (by simp)
      · simp only [gradeQuestionA, hfind]
    · simp only [gradeQuestionA, hfind, hq, hcorrect, Option.map_some']
      by_cases hlab : a.choiceLabel = some c.label
      · rw [if_pos hlab]
        exact ⟨⟨fun _ => ⟨a, rfl, hlab⟩, fun _ => rfl⟩, rfl⟩
      · rw [if_neg hlab]
        refine ⟨?_, rfl⟩
        constructor
        · intro h0
          exact absurd h0.symm (effWeight_ne_zero q)
        · rintro ⟨a2, ha2, hlab2⟩
          rw [Option.some_inj] at ha2
          rw [← ha2] at hlab2
          exact absurd hlab2 hlab
  · intro resp r htype
    simp only [gradeResponse, htype]

/-- Closed instance of the amended C6 rules: a correct label earns the full
weight in the aggregate variant and the parseInt comparison drives the
per-question variant. -/
theorem choice_grading_rules_instance :
    ((((gradeQuestionA (fun _ => .httpError) [⟨"q1", some "B", none⟩]
        ⟨"q1", .mcq, [⟨"A", "three", false⟩, ⟨"B", "four", true⟩], "qt", "ma", "rb", some 1⟩).score =
      effWeight ⟨"q1", .mcq, [⟨"A", "three", false⟩, ⟨"B", "four", true⟩], "qt", "ma", "rb", some 1⟩) ↔
        (∃ a, ([⟨"q1", some "B", none⟩] : List Answer).find?
            (fun x => x.questionId = "q1") = some a ∧
          a.choiceLabel = some (ChoiceOpt.label ⟨"B", "four", true⟩))) ∧
      (gradeQuestionA (fun _ => .httpError) [⟨"q1", some "B", none⟩]
        ⟨"q1", .mcq, [⟨"A", "three", false⟩, ⟨"B", "four", true⟩], "qt", "ma", "rb", some 1⟩).confidence = "high") ∧
    (gradeResponse .httpError ⟨"3", ⟨"qa", .multiple_choice, 1, some 2, "qt", "sa", none⟩⟩).2.1 =
      if mcqMatches ⟨"3", ⟨"qa", .multiple_choice, 1, some 2, "qt", "sa", none⟩⟩ then 1 else 0 :=
  ⟨choice_grading_rules.1 (fun _ => .httpError) [⟨"q1", some "B", none⟩]
      ⟨"q1", .mcq, [⟨"A", "three", false⟩, ⟨"B", "four", true⟩], "qt", "ma", "rb", some 1⟩
      ⟨"B", "four", true⟩ rfl (by decide),
    choice_grading_rules.2 .httpError
      ⟨"3", ⟨"qa", .multiple_choice, 1, some 2, "qt", "sa", none⟩⟩ rfl⟩

/-! ## C7: the review flag -/

/-- C7 counterexample.  The claim states the review flag is true exactly when
confidence is Low, the fallback was used, or the score was clamped.  The
per-question variant also copies a `requiresReview` field straight from the
oracle: an in-range score 1 of 2 with confidence high and oracle-asserted
`requiresReview: true` produces an outcome with the flag set although its
confidence is high, its feedback is the oracle text (not a fallback message)
and its score is the unclamped oracle value. -/
theorem review_flag_from_oracle_field :
    gradeShortAnswer "qt" "sa" "ma" none 2 (.parsed ⟨some 1, some "ok", "high", true⟩) =
      ⟨1, 2, "ok", .high, true⟩ ∧
    Confidence.high ≠ Confidence.low := by
  constructor
  · rw [gradeShortAnswer_parsed "qt" "sa" "ma" none 2 1 "ok" "high" true .high rfl]
    rw [if_neg (by push_neg; exact ⟨by norm_num, by norm_num, by decide⟩)]
    norm_num
  · decide

/-- C7 amended: in the per-question variant the review flag of a validated
short answer outcome is the oracle-supplied `requiresReview` field OR-ed
with the confidence being Low; both oracle-failure fallbacks always set the
flag; multiple-choice outcomes never carry a set flag; and the
`requiresReview` field never changes the numeric score. -/
theorem review_flag_rule :
    (∀ (qt sa sam : String) (rub : Option String) (w s : ℚ) (fb c : String)
        (rr : Bool) (conf : Confidence),
      parseConfidence c = some conf → ¬(s < 0 ∨ w < s ∨ fb = "") →
      (gradeShortAnswer qt sa sam rub w (.parsed ⟨some s, some fb, c, rr⟩)).requiresReview =
        (rr || conf = .low)) ∧
    (∀ (qt sa sam : String) (rub : Option String) (w : ℚ),
      (gradeShortAnswer qt sa sam rub w .httpError).requiresReview = true ∧
      (gradeShortAnswer qt sa sam rub w .parseError).requiresReview = true) ∧
    (∀ (resp : OracleResp) (r : BResponse),
      r.questions.question_type = .multiple_choice →
      (gradeResponse resp r).1.reviewFlag = false) ∧
    (∀ (qt sa sam : String) (rub : Option String) (w : ℚ) (s : Option ℚ)
        (fb : Option String) (c : String) (b1 b2 : Bool),
      (gradeShortAnswer qt sa sam rub w (.parsed ⟨s, fb, c, b1⟩)).score =
        (gradeShortAnswer qt sa sam rub w (.parsed ⟨s, fb, c, b2⟩)).score) := by
  refine ⟨?_, ?_, ?_, ?_⟩
  · intro qt sa sam rub w s fb c rr conf hc hval
    rw [gradeShortAnswer_parsed qt sa sam rub w s fb c rr conf hc, if_neg hval]
  · intro qt sa sam rub w
    exact ⟨rfl, rfl⟩
  · intro resp r htype
    simp only [gradeResponse, htype, BOutcome.reviewFlag]
  · intro qt sa sam rub w s fb c b1 b2
    rcases s with _ | s
    · rw [gradeShortAnswer_invalid_shape qt sa sam rub w _ (Or.inl rfl),
        gradeShortAnswer_invalid_shape qt sa sam rub w _ (Or.inl rfl)]
    · rcases fb with _ | fb
      · rw [gradeShortAnswer_invalid_shape qt sa sam rub w _ (Or.inr (Or.inl rfl)),
          gradeShortAnswer_invalid_shape qt sa sam rub w _ (Or.inr (Or.inl rfl))]
      · rcases hc : parseConfidence c with _ | conf
        · rw [gradeShortAnswer_invalid_shape qt sa sam rub w _ (Or.inr (Or.inr hc)),
            gradeShortAnswer_invalid_shape qt sa sam rub w _ (Or.inr (Or.inr hc))]
        · rw [gradeShortAnswer_parsed qt sa sam rub w s fb c b1 conf hc,
            gradeShortAnswer_parsed qt sa sam rub w s fb c b2 conf hc]
          by_cases hval : s < 0 ∨ w < s ∨ fb = ""
          · rw [if_pos hval, if_pos hval]
          · rw [if_neg hval, if_neg hval]

/-- Closed instance of the amended C7 rule: a validated high-confidence
response with an oracle-set review field keeps the flag, and a
multiple-choice outcome carries no flag. -/
theorem review_flag_rule_instance :
    (gradeShortAnswer "qt" "sa" "ma" none 2
        (.parsed ⟨some 2, some "fine", "high", true⟩)).requiresReview =
      (true || Confidence.high = Confidence.low) ∧
    (gradeResponse .httpError
        ⟨"1", ⟨"qa", .multiple_choice, 1, some 1, "qt", "sa", none⟩⟩).1.reviewFlag = false :=
  ⟨review_flag_rule.1 "qt" "sa" "ma" none 2 2 "fine" "high" true .high rfl
      (by push_neg; refine ⟨by norm_num, by norm_num, by decide⟩),
    review_flag_rule.2.2.1 .httpError
      ⟨"1", ⟨"qa", .multiple_choice, 1, some 1, "qt", "sa", none⟩⟩ rfl⟩

/-! ## C8: top-level failure modes -/

/-- C8 counterexample.  The claim states that a submission that cannot be
located fails with a NotFound error.  In the aggregate variant the failed
submission fetch is thrown and caught by the blanket catch block, which
answers with HTTP status 500 (carrying the database error message), not
with a 404 NotFound; that variant also has no authorization check at all. -/
theorem aggregate_lookup_failure_is_500 :
    statusA (serveGradeA
      ⟨.error "JSON object requested, multiple (or no) rows returned", .ok [],
        fun _ => .httpError⟩) = 500 ∧
    (500 : ℕ) ≠ 404 := by
  constructor
  · rfl
  · decide

/-- C8 amended: in the per-question variant a missing submission answers 404,
a caller who is neither the submitting student nor the quiz author answers
403, a missing or invalid authorization answers 401, a missing submission
id answers 400 and a failed responses fetch answers 500 — all before any
grading — and whenever every lookup succeeds the handler always returns a
fully graded 200 result.  In the aggregate variant lookup failures surface
as plain 500 responses and no authorization check exists. -/
theorem handler_error_dispatch :
    (∀ (env : BEnv) (h1 : env.authHeader.isSome) (h2 : env.authUser.isSome)
        (h3 : env.submissionId.isSome),
      env.submissionLookup = none → serveGradeB env = .submissionNotFound) ∧
    (∀ (env : BEnv) (ah : String) (userId : String) (sid : String) (sub : BSubmission),
      env.authHeader = some ah → env.authUser = some userId →
      env.submissionId = some sid → env.submissionLookup = some sub →
      sub.student_id ≠ userId → sub.quizzes_created_by ≠ userId →
      serveGradeB env = .notPermitted) ∧
    (∀ (env : BEnv) (ah : String) (userId : String) (sid : String) (sub : BSubmission)
        (rs : List BResponse),
      env.authHeader = some ah → env.authUser = some userId →
      env.submissionId = some sid → env.submissionLookup = some sub →
      (sub.student_id = userId ∨ sub.quizzes_created_by = userId) →
      env.responsesLookup = some rs →
      serveGradeB env = .ok (runB env.oracle rs)) ∧
    (∀ (msg : String) (qlook : Except String (List QuestionData))
        (o : String → OracleResult),
      serveGradeA ⟨.error msg, qlook, o⟩ = .internalError msg) := by
  refine ⟨?_, ?_, ?_, ?_⟩
  · intro env h1 h2 h3 hsub
    obtain ⟨ah, hah⟩ := Option.isSome_iff_exists.mp h1
    obtain ⟨u, hu⟩ := Option.isSome_iff_exists.mp h2
    obtain ⟨sid, hsid⟩ := Option.isSome_iff_exists.mp h3
    simp only [serveGradeB, hah, hu, hsid, hsub]
  · intro env ah userId sid sub hah hu hsid hsub hstud hauth
    simp only [serveGradeB, hah, hu, hsid, hsub]
    rw [if_pos ⟨hstud, hauth⟩]
  · intro env ah userId sid sub rs hah hu hsid hsub hperm hresp
    simp only [serveGradeB, hah, hu, hsid, hsub, hresp]
    rw [if_neg (by tauto)]
  · intro msg qlook o
    rfl

/-- Closed instance of the amended C8 dispatch: a concrete environment with a
missing submission answers 404, and one with an unrelated caller answers
403. -/
theorem handler_error_dispatch_instance :
    serveGradeB ⟨some "Bearer t", some "u1", some "s1", none, none, fun _ => .httpError⟩ =
      .submissionNotFound ∧
    serveGradeB ⟨some "Bearer t", some "u1", some "s1", some ⟨"student9", "teacher7"⟩,
        none, fun _ => .httpError⟩ = .notPermitted :=
  ⟨handler_error_dispatch.1
      ⟨some "Bearer t", some "u1", some "s1", none, none, fun _ => .httpError⟩
      rfl rfl rfl rfl,
    handler_error_dispatch.2.1
      ⟨some "Bearer t", some "u1", some "s1", some ⟨"student9", "teacher7"⟩,
        none, fun _ => .httpError⟩
      "Bearer t" "u1" "s1" ⟨"student9", "teacher7"⟩ rfl rfl rfl rfl
      (by decide) (by decide)⟩

/-! ## C9: Choice questions with no correct option -/

/-- C9 counterexample.  The claim states a Choice question with zero options
marked correct yields a MalformedQuestion outcome with score 0, confidence
Low and the review flag set.  The aggregate variant instead grades it as an
ordinary incorrect answer: confidence is the string high (not low), there is
no review flag in this variant at all, and the explanation interpolates the
undefined correct option. -/
theorem no_correct_option_graded_high :
    gradeQuestionA (fun _ => .httpError) [⟨"q1", some "A", none⟩]
        ⟨"q1", .mcq, [⟨"A", "three", false⟩, ⟨"B", "four", false⟩], "qt", "ma", "rb", some 1⟩ =
      ⟨"q1", 0, 1, "high", "Incorrect. The correct answer was undefined: undefined"⟩ ∧
    ("high" : String) ≠ "low" := by
  refine ⟨?_, by decide⟩
  simp only [gradeQuestionA]
  rw [show (List.find? (fun x => x.questionId = "q1")
      [(⟨"q1", some "A", none⟩ : Answer)]) = some ⟨"q1", some "A", none⟩ from by decide]
  simp only
  rw [show (List.find? (fun c => c.is_correct)
      [(⟨"A", "three", false⟩ : ChoiceOpt), ⟨"B", "four", false⟩]) = none from by decide]
  rw [if_neg (by decide)]
  simp [jsStr, effWeight]

/-- C9 amended: in the aggregate variant a Choice question with zero correct
options and a found answer is graded through the ordinary comparison with
the undefined correct option: score 0 with the ordinary incorrect
explanation when the answer carries a label, but the full defaulted weight
(undefined equals undefined) when it carries none; confidence is the string
high in both cases; no MalformedQuestion outcome, Low confidence or review
flag exists; and the loop still grades every question. -/
theorem no_correct_option_behavior :
    (∀ (o : String → OracleResult) (ans : List Answer) (q : QuestionData) (a : Answer),
      q.qtype = .mcq → q.choices.find? (fun c => c.is_correct) = none →
      ans.find? (fun x => x.questionId = q.id) = some a →
      gradeQuestionA o ans q =
        ⟨q.id, (if a.choiceLabel = none then effWeight q else 0), effWeight q, "high",
          (if a.choiceLabel = none then "Correct answer!"
            else "Incorrect. The correct answer was undefined: undefined")⟩) ∧
    (∀ (o : String → OracleResult) (qs : List QuestionData) (ans : List Answer),
      (runA o qs ans).gradedResults.length = qs.length) := by
  constructor
  · intro o ans q a hq hnone hfind
    simp only [gradeQuestionA, hfind, hq, hnone, Option.map_none']
    by_cases hlab : a.choiceLabel = none
    · rw [if_pos hlab, if_pos hlab, if_pos hlab]
    · rw [if_neg hlab, if_neg hlab, if_neg hlab]
      simp [jsStr]
  · intro o qs ans
    simp [runA_spec]

/-- Closed instance of the amended C9 behaviour on a concrete zero-correct
question with a labelled answer. -/
theorem no_correct_option_behavior_instance :
    gradeQuestionA (fun _ => .httpError) [⟨"q1", some "B", none⟩]
        ⟨"q1", .mcq, [⟨"A", "three", false⟩], "qt", "ma", "rb", some 2⟩ =
      ⟨"q1",
        (if (some "B" : Option String) = none then
          effWeight ⟨"q1", .mcq, [⟨"A", "three", false⟩], "qt", "ma", "rb", some 2⟩ else 0),
        effWeight ⟨"q1", .mcq, [⟨"A", "three", false⟩], "qt", "ma", "rb", some 2⟩, "high",
        (if (some "B" : Option String) = none then "Correct answer!"
          else "Incorrect. The correct answer was undefined: undefined")⟩ :=
  no_correct_option_behavior.1 (fun _ => .httpError) [⟨"q1", some "B", none⟩]
    ⟨"q1", .mcq, [⟨"A", "three", false⟩], "qt", "ma", "rb", some 2⟩
    ⟨"q1", some "B", none⟩ rfl (by decide) (by decide)

/-! ## C10: weight defaulting in the aggregate variant -/

/-- C10: the aggregate variant treats a missing and a zero weight as 1 and
applies the same defaulted weight everywhere: the per-question max
accumulation, the multiple-choice score (full defaulted weight or 0), the
error-status fallback score (floor of half the defaulted weight) and both
weight slots of the oracle prompt; in particular a weight-0 question
contributes 1 to the max score. -/
theorem weight_default_consistency :
    (∀ q : QuestionData, q.weight = none → effWeight q = 1) ∧
    (∀ q : QuestionData, q.weight = some 0 → effWeight q = 1) ∧
    (∀ (o : String → OracleResult) (qs : List QuestionData) (ans : List Answer),
      (runA o qs ans).maxPossibleScore = (qs.map effWeight).sum) ∧
    (∀ (o : String → OracleResult) (ans : List Answer) (q : QuestionData),
      q.qtype = .mcq →
      (gradeQuestionA o ans q).score = 0 ∨
        (gradeQuestionA o ans q).score = effWeight q) ∧
    (∀ (o : String → OracleResult) (ans : List Answer) (q : QuestionData) (a : Answer),
      ans.find? (fun x => x.questionId = q.id) = some a → q.qtype = .short →
      o (gradingPrompt q a) = .httpError →
      (gradeQuestionA o ans q).score = ((⌊effWeight q * (1/2)⌋ : ℤ) : ℚ)) ∧
    (∀ (q : QuestionData) (a : Answer),
      gradingPrompt q a =
        promptTemplate q.question_text q.model_answer q.rubric_explainer
          (jsStr a.answerText) (effWeight q)) := by
  refine ⟨?_, ?_, ?_, ?_, ?_, ?_⟩
  · intro q hq
    simp [effWeight, hq]
  · intro q hq
    simp [effWeight, hq]
  · intro o qs ans
    simp [runA_spec]
  · intro o ans q hq
    rcases hfind : ans.find? (fun x => x.questionId = q.id) with _ | a
    · simp only [gradeQuestionA, hfind]
      exact Or.inl trivial
    · simp only [gradeQuestionA, hfind, hq]
      by_cases hlab : a.choiceLabel =
          ((q.choices.find? (fun c => c.is_correct)).map (fun c => c.label))
      · rw [if_pos hlab]
        exact Or.inr rfl
      · rw [if_neg hlab]
        exact Or.inl rfl
  · intro o ans q a hfind hq horc
    simp only [gradeQuestionA, hfind, hq, horc]
  · intro q a
    rfl

/-- Closed instance of the C10 defaulting: a weight-0 question and a
weightless question both default to 1 and the weight-0 question contributes
1 to the max score. -/
theorem weight_default_consistency_instance :
    effWeight ⟨"q1", .mcq, [], "qt", "ma", "rb", some 0⟩ = 1 ∧
    effWeight ⟨"q2", .short, [], "qt", "ma", "rb", none⟩ = 1 ∧
    (runA (fun _ => .httpError) [⟨"q1", .mcq, [], "qt", "ma", "rb", some 0⟩] []).maxPossibleScore =
      ([⟨"q1", .mcq, [], "qt", "ma", "rb", some 0⟩].map effWeight).sum :=
  ⟨weight_default_consistency.2.1 ⟨"q1", .mcq, [], "qt", "ma", "rb", some 0⟩ rfl,
    weight_default_consistency.1 ⟨"q2", .short, [], "qt", "ma", "rb", none⟩ rfl,
    weight_default_consistency.2.2.1 (fun _ => .httpError)
      [⟨"q1", .mcq, [], "qt", "ma", "rb", some 0⟩] []⟩
